import Mathlib

/-
Verification of the Soldered MicroPython driver modules.

The drivers are shallowly embedded: the bus transaction primitives
(machine.I2C / machine.SPI) are treated as given platform oracles
represented by structures of outcome functions, and every driver method
is translated into a pure Lean function that returns its result, the
updated driver state, and the list of bus events it performed.
Python integers are modelled by Int (or Nat where the values are byte
counts and register bytes), with Python floor division and arithmetic
shifts made explicit; Python floats are idealised as rationals; a raised
Python exception is an Except value.
-/

/-- Python floor division `a // b` (for `b > 0` this is `Int.fdiv`). -/
def pyFdiv (a b : Int) : Int := Int.fdiv a b

/-- Python left shift `a << k` on integers: multiplication by `2 ^ k`. -/
def pyShl (a : Int) (k : Nat) : Int := a * 2 ^ k

/-- Python arithmetic right shift `a >> k` on integers: floor division by `2 ^ k`. -/
def pyShr (a : Int) (k : Nat) : Int := Int.fdiv a (2 ^ k)

/-- A Python exception, as far as the drivers distinguish them. -/
inductive PyErr
  | osError
  | valueError
  | indexError
  deriving DecidableEq, Repr

/-- One bus transaction (or fixed delay) performed by an I2C driver method. -/
inductive BusEv
  | wr (data : List Nat)
  | rd (n : Nat)
  | sleepMs (ms : Nat)
  deriving DecidableEq, Repr

/-- The platform I2C primitive for one device: outcome of `i2c.writeto`
on a byte string and of `i2c.readfrom` for a byte count.  A `.error`
outcome models the bus transaction raising an exception. -/
structure I2CPort where
  writeOutcome : List Nat → Except PyErr Unit
  readOutcome : Nat → Except PyErr (List Nat)

namespace Qwiic

/-- Driver state of the `Qwiic` base class: the stored `self.err`
(`none` models the initial `0`, `some e` a stored exception). -/
structure QwiicSt where
  err : Option PyErr
  deriving DecidableEq, Repr

/-- `Qwiic.send_address`: writes the single register-address byte;
returns `0` on success and `-1` on a raised exception, storing the
exception in `self.err`. -/
def send_address (p : I2CPort) (st : QwiicSt) (reg : Nat) :
    Int × QwiicSt × List BusEv :=
  match p.writeOutcome [reg] with
  | .ok _ => (0, st, [.wr [reg]])
  | .error e => (-1, { st with err := some e }, [.wr [reg]])

/-- `Qwiic.read_data`: reads `n` bytes; on a raised exception stores it
in `self.err` and returns the empty byte string. -/
def read_data (p : I2CPort) (st : QwiicSt) (n : Nat) :
    List Nat × QwiicSt × List BusEv :=
  match p.readOutcome n with
  | .ok d => (d, st, [.rd n])
  | .error e => ([], { st with err := some e }, [.rd n])

/-- `Qwiic.read_register`: sends the register address, then reads `n`
bytes; if the address write fails it returns the empty byte string
without issuing the read. -/
def read_register (p : I2CPort) (st : QwiicSt) (reg : Nat) (n : Nat) :
    List Nat × QwiicSt × List BusEv :=
  let a := send_address p st reg
  if a.1 ≠ 0 then ([], a.2.1, a.2.2)
  else
    let r := read_data p a.2.1 n
    (r.1, r.2.1, a.2.2 ++ r.2.2)

/-- `Qwiic.send_data`: writes a byte string; returns `0` on success and
`-1` on a raised exception, storing the exception in `self.err`. -/
def send_data (p : I2CPort) (st : QwiicSt) (data : List Nat) :
    Int × QwiicSt × List BusEv :=
  match p.writeOutcome data with
  | .ok _ => (0, st, [.wr data])
  | .error e => (-1, { st with err := some e }, [.wr data])

end Qwiic

namespace PIRSensor

/-- Driver state of `PIRSensor` (I2C mode): the inherited Qwiic state
and the stored `self.state`. -/
structure PIRSt where
  qw : Qwiic.QwiicSt
  state : Bool
  deriving DecidableEq, Repr

/-- `PIRSensor.get_state` (I2C mode): reads one byte and returns
`bool(data[0]) if data else False`, storing the result in `self.state`. -/
def get_state (p : I2CPort) (st : PIRSt) : Bool × PIRSt × List BusEv :=
  let r := Qwiic.read_data p st.qw 1
  let s : Bool :=
    match r.1 with
    | [] => false
    | b :: _ => decide (b ≠ 0)
  (s, { qw := r.2.1, state := s }, r.2.2)

end PIRSensor

namespace RotaryEncoder

/-- Driver state of `RotaryEncoder`: the inherited Qwiic state and the
stored `self.rotaryCount` and `self.state`. -/
structure RotSt where
  qw : Qwiic.QwiicSt
  rotaryCount : Int
  state : Nat
  deriving DecidableEq, Repr

/-- `ustruct.unpack('<h', data)[0]`: the first two bytes as a
little-endian signed 16-bit integer; raises when fewer than two bytes
are available. -/
def unpackInt16le (data : List Nat) : Except PyErr Int :=
  if data.length < 2 then .error .valueError
  else
    let v := data.getD 0 0 + 256 * data.getD 1 0
    .ok (if v < 32768 then (v : Int) else (v : Int) - 65536)

/-- `RotaryEncoder.getData`: reads 5 bytes from register 0, unpacks the
count with `ustruct.unpack('<h', data)` and takes `data[4]` as the
state.  When the bus transaction failed, `read_register` returned the
empty byte string and the unpack raises. -/
def getData (p : I2CPort) (st : RotSt) :
    Except PyErr RotSt × List BusEv :=
  let r := Qwiic.read_register p st.qw 0 5
  match unpackInt16le r.1 with
  | .error e => (.error e, r.2.2)
  | .ok c =>
    if r.1.length < 5 then (.error .indexError, r.2.2)
    else (.ok { qw := r.2.1, rotaryCount := c, state := r.1.getD 4 0 }, r.2.2)

end RotaryEncoder

/-- An I2C port on which every transaction raises `OSError`. -/
def failPort : I2CPort :=
  { writeOutcome := fun _ => .error .osError
    readOutcome := fun _ => .error .osError }

/-- An I2C port on which every transaction succeeds; a read of `n`
bytes returns `n` copies of the byte `7`. -/
def okPort : I2CPort :=
  { writeOutcome := fun _ => .ok ()
    readOutcome := fun n => .ok (List.replicate n 7) }

/-- A fresh Qwiic driver state. -/
def qst0 : Qwiic.QwiicSt := { err := none }

/-- A fresh rotary-encoder driver state. -/
def rst0 : RotaryEncoder.RotSt := { qw := qst0, rotaryCount := 0, state := 0 }

/-- A fresh PIR driver state. -/
def pst0 : PIRSensor.PIRSt := { qw := qst0, state := false }

example : (RotaryEncoder.getData failPort rst0).1 = .error .valueError := by rfl
example : Qwiic.read_data failPort qst0 3 =
    ([], { err := some .osError }, [.rd 3]) := by rfl
example : (PIRSensor.get_state failPort pst0).1 = false := by rfl
example : Qwiic.read_register okPort qst0 5 3 =
    ([7, 7, 7], qst0, [.wr [5], .rd 3]) := by rfl

/-- One `writeto_mem` / `sleep_ms` / `readfrom_mem` step performed by
the BMP180 driver. -/
inductive MemEv
  | wrMem (reg : Nat) (data : List Nat)
  | sleepMs (ms : Nat)
  | rdMem (reg : Nat) (n : Nat)
  deriving DecidableEq, Repr

/-- The platform `readfrom_mem` primitive for the BMP180: register
address and byte count to the bytes returned (successful operation). -/
structure BMPPort where
  readMem : Nat → Nat → List Nat

namespace BMP180

/-- The eleven signed/unsigned calibration coefficients read from the
BMP180 EEPROM into `self.cal`. -/
structure BMPCal where
  AC1 : Int
  AC2 : Int
  AC3 : Int
  AC4 : Int
  AC5 : Int
  AC6 : Int
  B1 : Int
  B2 : Int
  MB : Int
  MC : Int
  MD : Int
  deriving DecidableEq, Repr

/-- `BMP180._read_raw_pressure`: writes the command byte
`0x34 + (oss << 6)` to control register `0xF4`, sleeps
`2 + (3 << oss)` milliseconds, reads three bytes `msb, lsb, xlsb` from
data register `0xF6` and returns
`((msb << 16) + (lsb << 8) + xlsb) >> (8 - oss)`. -/
def read_raw_pressure (p : BMPPort) (oss : Nat) : Nat × List MemEv :=
  let cmd := 0x34 + (oss <<< 6)
  let raw := p.readMem 0xF6 3
  let msb := raw.getD 0 0
  let lsb := raw.getD 1 0
  let xlsb := raw.getD 2 0
  (((msb <<< 16) + (lsb <<< 8) + xlsb) >>> (8 - oss),
   [.wrMem 0xF4 [cmd], .sleepMs (2 + (3 <<< oss)), .rdMem 0xF6 3])

/-- `BMP180.read_temperature`, parameterised by the raw temperature
word `UT` delivered by `_read_raw_temp`: returns the stored `self._B5`
together with the returned value `T / 10.0` (floats idealised as
rationals). -/
def read_temperature (cal : BMPCal) (UT : Int) : Int × ℚ :=
  let X1 := pyShr ((UT - cal.AC6) * cal.AC5) 15
  let X2 := pyFdiv (pyShl cal.MC 11) (X1 + cal.MD)
  let B5 := X1 + X2
  let T := pyShr (B5 + 8) 4
  (B5, (T : ℚ) / 10)

/-- The part of `BMP180.read_pressure` after the `read_temperature`
call, parameterised by the stored `self._B5` and the raw pressure `UP`:
the integer value `P` of the datasheet pipeline. -/
def pressureP (cal : BMPCal) (B5 UP : Int) (oss : Nat) : Int :=
  let B6 := B5 - 4000
  let X1 := pyShr (cal.B2 * (pyShr (B6 * B6) 12)) 11
  let X2 := pyShr (cal.AC2 * B6) 11
  let X3 := X1 + X2
  let B3 := pyShr (pyShl (cal.AC1 * 4 + X3) oss + 2) 2
  let X1 := pyShr (cal.AC3 * B6) 13
  let X2 := pyShr (cal.B1 * (pyShr (B6 * B6) 12)) 16
  let X3 := pyShr ((X1 + X2) + 2) 2
  let B4 := pyShr (cal.AC4 * (X3 + 32768)) 15
  let B7 := (UP - B3) * (pyShr 50000 oss)
  let P := if B7 < 0x80000000 then pyFdiv (B7 * 2) B4 else pyFdiv B7 B4 * 2
  let X1 := pyShr P 8 * pyShr P 8
  let X1 := pyShr (X1 * 3038) 16
  let X2 := pyShr (-7357 * P) 16
  P + pyShr (X1 + X2 + 3791) 4

/-- `BMP180.read_pressure`, parameterised by the raw words `UT` and
`UP`: calls `read_temperature` first to compute `self._B5`, runs the
integer pipeline, and returns `P / 100`. -/
def read_pressure (cal : BMPCal) (UT UP : Int) (oss : Nat) : ℚ :=
  let B5 := (read_temperature cal UT).1
  (pressureP cal B5 UP oss : ℚ) / 100

end BMP180

/-- Modelled from the spec: the Bosch datasheet temperature
compensation formula of claim C2, `X1 = ((UT - AC6) * AC5) >> 15`,
`X2 = (MC << 11) // (X1 + MD)`, `B5 = X1 + X2`. -/
def boschSpecB5 (AC5 AC6 MC MD UT : Int) : Int :=
  let X1 := pyShr ((UT - AC6) * AC5) 15
  let X2 := pyFdiv (pyShl MC 11) (X1 + MD)
  X1 + X2

/-- Modelled from the spec: the Bosch datasheet value
`T = (X1 + X2 + 8) >> 4 = (B5 + 8) >> 4` of claim C2. -/
def boschSpecT (AC5 AC6 MC MD UT : Int) : Int :=
  pyShr (boschSpecB5 AC5 AC6 MC MD UT + 8) 4

/-- Modelled from the spec: the intermediate `B4` of the Bosch
datasheet pressure pipeline of claim C3. -/
def boschSpecB4 (cal : BMP180.BMPCal) (B5 : Int) : Int :=
  let B6 := B5 - 4000
  let X1 := pyShr (cal.AC3 * B6) 13
  let X2 := pyShr (cal.B1 * (pyShr (B6 * B6) 12)) 16
  let X3 := pyShr ((X1 + X2) + 2) 2
  pyShr (cal.AC4 * (X3 + 32768)) 15

/-- Modelled from the spec: the Bosch datasheet integer pressure
pipeline of claim C3: `B6 = B5 - 4000`; `B3`, `B4` from the
`X1`/`X2`/`X3` intermediate terms; `B7 = (UP - B3) * (50000 >> oss)`;
`P = B7 * 2 // B4` when `B7 < 0x80000000` and `P = (B7 // B4) * 2`
otherwise; then `P = P + ((X1 + X2 + 3791) >> 4)`. -/
def boschSpecP (cal : BMP180.BMPCal) (B5 UP : Int) (oss : Nat) : Int :=
  let B6 := B5 - 4000
  let X1 := pyShr (cal.B2 * (pyShr (B6 * B6) 12)) 11
  let X2 := pyShr (cal.AC2 * B6) 11
  let X3 := X1 + X2
  let B3 := pyShr (pyShl (cal.AC1 * 4 + X3) oss + 2) 2
  let B4 := boschSpecB4 cal B5
  let B7 := (UP - B3) * (pyShr 50000 oss)
  let P := if B7 < 0x80000000 then pyFdiv (B7 * 2) B4 else pyFdiv B7 B4 * 2
  let X1 := pyShr P 8 * pyShr P 8
  let X1 := pyShr (X1 * 3038) 16
  let X2 := pyShr (-7357 * P) 16
  P + pyShr (X1 + X2 + 3791) 4

/-- The BMP180 datasheet example calibration constants. -/
def calEx : BMP180.BMPCal :=
  { AC1 := 408, AC2 := -72, AC3 := -14383, AC4 := 32741, AC5 := 32757,
    AC6 := 23153, B1 := 6190, B2 := 4, MB := -32768, MC := -8711, MD := 2868 }

example : (BMP180.read_temperature calEx 27898).1 = 2399 := by decide
example : BMP180.pressureP calEx 2399 23843 0 = 69964 := by decide

namespace SHTC3

/-- Sensor commands of the SHTC3 (16-bit command words). -/
def SHTC3_SLEEP : Nat := 0xB098

/-- The SHTC3 wakeup command word. -/
def SHTC3_WAKEUP : Nat := 0x3517

/-- The SHTC3 normal-power measurement command word. -/
def SHTC3_READ : Nat := 0x7CA2

/-- The humidity scaling constant `H_K = 0.001525878906` (float literal
idealised as the rational it denotes). -/
def H_K : ℚ := 1525878906 / 1000000000000

/-- The temperature scaling constant `T_K = 0.002670288086`. -/
def T_K : ℚ := 2670288086 / 1000000000000

/-- The temperature offset `T_MIN = 45.0`. -/
def T_MIN : ℚ := 45

/-- Driver state of `SHTC3`: the stored raw words `self._t` and
`self._h`. -/
structure SHTC3St where
  _t : Nat
  _h : Nat
  deriving DecidableEq, Repr

/-- `SHTC3.crc8`: CRC-8 with polynomial `0x31` and initial value
`0xFF` over a byte string. -/
def crc8 (data : List Nat) : Nat :=
  data.foldl
    (fun crc byte =>
      (List.range 8).foldl
        (fun c _ => (if c &&& 0x80 ≠ 0 then (c <<< 1) ^^^ 0x31 else c <<< 1) &&& 0xFF)
        (crc ^^^ byte))
    0xFF

/-- `SHTC3.check_crc`: the CRC of the first two bytes equals the third. -/
def check_crc (data : List Nat) : Bool :=
  decide (crc8 (data.take 2) = data.getD 2 0)

/-- `SHTC3.twi_command`: writes the two command bytes, returning
`False` when the write raises `OSError`. -/
def twi_command (p : I2CPort) (cmd : Nat) : Bool × List BusEv :=
  let b := [cmd >>> 8, cmd &&& 0xFF]
  match p.writeOutcome b with
  | .ok _ => (true, [.wr b])
  | .error _ => (false, [.wr b])

/-- `SHTC3.twi_transfer`: sends the command, sleeps `pause_ms` when
positive, then reads `length` bytes; returns `None` when the command
write failed, when the read raised, or when fewer bytes came back. -/
def twi_transfer (p : I2CPort) (cmd len pause : Nat) :
    Option (List Nat) × List BusEv :=
  let c := twi_command p cmd
  if !c.1 then (none, c.2)
  else
    let pse : List BusEv := if pause > 0 then [.sleepMs pause] else []
    match p.readOutcome len with
    | .ok d => (if d.length = len then some d else none, c.2 ++ pse ++ [.rd len])
    | .error _ => (none, c.2 ++ pse ++ [.rd len])

/-- `SHTC3.sample`: wakes the sensor, transfers a 6-byte measurement
frame, sends the sleep command, and on a CRC-valid frame stores the
16-bit raw words into `self._t` and `self._h` and returns `True`;
otherwise returns `False`. -/
def sample (p : I2CPort) (st : SHTC3St) (readcmd : Nat := SHTC3_READ)
    (pause : Nat := 15) : Bool × SHTC3St × List BusEv :=
  let w := twi_command p SHTC3_WAKEUP
  if !w.1 then (false, st, w.2)
  else
    let tr := twi_transfer p readcmd 6 pause
    let sl := twi_command p SHTC3_SLEEP
    match tr.1 with
    | none => (false, st, w.2 ++ tr.2 ++ sl.2)
    | some d =>
      if check_crc d && check_crc (d.drop 3) then
        (true,
         { _t := (d.getD 0 0) <<< 8 ||| d.getD 1 0,
           _h := (d.getD 3 0) <<< 8 ||| d.getD 4 0 },
         w.2 ++ tr.2 ++ sl.2)
      else (false, st, w.2 ++ tr.2 ++ sl.2)

/-- `SHTC3.readTemperature`: the pure conversion
`(self._t * T_K) - T_MIN` of the stored raw word; it touches no bus, so
its event list is empty. -/
def readTemperature (st : SHTC3St) : ℚ × List BusEv :=
  ((st._t : ℚ) * T_K - T_MIN, [])

/-- `SHTC3.readHumidity`: the pure conversion `self._h * H_K` of the
stored raw word; it touches no bus, so its event list is empty. -/
def readHumidity (st : SHTC3St) : ℚ × List BusEv :=
  ((st._h : ℚ) * H_K, [])

end SHTC3

/-- One chip-select SPI transaction performed by the DS3234 driver:
a register write with payload bytes, or a register read of `n` bytes. -/
inductive SpiEv
  | wr (reg : Nat) (data : List Nat)
  | rd (reg : Nat) (n : Nat)
  deriving DecidableEq, Repr

/-- The platform SPI read primitive for the DS3234: register address
and byte count to the bytes returned. -/
structure SpiPort where
  read : Nat → Nat → List Nat

namespace DS3234

/-- Driver state of `DS3234`: the stored `self._time` register image
and the stored `self._pm` flag. -/
structure DS3234St where
  _time : List Nat
  _pm : Bool
  deriving DecidableEq, Repr

/-- `DS3234.BCDtoDEC`: `((val // 0x10) * 10) + (val % 0x10)`. -/
def BCDtoDEC (val : Nat) : Nat := (val / 0x10) * 10 + val % 0x10

/-- `DS3234.DECtoBCD`: `((val // 10) * 0x10) + (val % 10)`. -/
def DECtoBCD (val : Nat) : Nat := (val / 10) * 0x10 + val % 10

/-- `DS3234._spi_write_byte`: one chip-select transaction writing
`value` to register `reg | 0x80`. -/
def spi_write_byte (reg value : Nat) : List SpiEv :=
  [.wr (reg ||| 0x80) [value]]

/-- `DS3234._spi_read_bytes`: one chip-select transaction writing the
register address and reading `length` bytes. -/
def spi_read_bytes (p : SpiPort) (reg len : Nat) : List Nat × List SpiEv :=
  (p.read reg len, [.rd reg len])

/-- `DS3234._spi_read_byte`: one chip-select transaction reading a
single byte from a register. -/
def spi_read_byte (p : SpiPort) (reg : Nat) : Nat × List SpiEv :=
  ((p.read reg 1).getD 0 0, [.rd reg 1])

/-- `DS3234.update`: reads the seven time/date registers in one bus
transaction, copies them into `self._time`, and normalises the hours
byte (12-hour mode: record am/pm and mask with `0x1F`; 24-hour mode:
mask with `0x3F`). -/
def update (p : SpiPort) (st : DS3234St) : DS3234St × List SpiEv :=
  let r := spi_read_bytes p 0 7
  let rtc := r.1
  let t := [rtc.getD 0 0, rtc.getD 1 0, rtc.getD 2 0, rtc.getD 3 0,
            rtc.getD 4 0, rtc.getD 5 0, rtc.getD 6 0]
  let hours := rtc.getD 2 0
  if hours &&& 0x40 ≠ 0 then
    ({ _time := t.set 2 (hours &&& 0x1F), _pm := decide (hours &&& 0x20 ≠ 0) }, r.2)
  else
    ({ _time := t.set 2 (hours &&& 0x3F), _pm := st._pm }, r.2)

/-- `DS3234.second`: returns `BCDtoDEC(self._time[TIME_SECONDS])` from
the stored register image; it touches no bus, so its event list is
empty. -/
def second (st : DS3234St) : Nat × List SpiEv :=
  (BCDtoDEC (st._time.getD 0 0), [])

/-- `DS3234.minute`: `BCDtoDEC(self._time[TIME_MINUTES])`, no bus. -/
def minute (st : DS3234St) : Nat × List SpiEv :=
  (BCDtoDEC (st._time.getD 1 0), [])

/-- `DS3234.getSecond`: reads the seconds register in this call,
stores it into `self._time`, and returns its BCD decoding. -/
def getSecond (p : SpiPort) (st : DS3234St) : Nat × DS3234St × List SpiEv :=
  let r := spi_read_byte p 0
  (BCDtoDEC r.1, { st with _time := st._time.set 0 r.1 }, r.2)

/-- `DS3234.setSecond`: writes the BCD of `s` to the seconds register
iff `s <= 59`; otherwise does nothing. -/
def setSecond (st : DS3234St) (s : Nat) : DS3234St × List SpiEv :=
  if s ≤ 59 then (st, spi_write_byte 0x00 (DECtoBCD s)) else (st, [])

/-- `DS3234.setMinute`: writes iff `m <= 59`. -/
def setMinute (st : DS3234St) (m : Nat) : DS3234St × List SpiEv :=
  if m ≤ 59 then (st, spi_write_byte 0x01 (DECtoBCD m)) else (st, [])

/-- `DS3234.setHour`: writes iff `h <= 23`. -/
def setHour (st : DS3234St) (h : Nat) : DS3234St × List SpiEv :=
  if h ≤ 23 then (st, spi_write_byte 0x02 (DECtoBCD h)) else (st, [])

/-- `DS3234.setDay`: writes iff `1 <= d <= 7`. -/
def setDay (st : DS3234St) (d : Nat) : DS3234St × List SpiEv :=
  if 1 ≤ d ∧ d ≤ 7 then (st, spi_write_byte 0x03 (DECtoBCD d)) else (st, [])

/-- `DS3234.setDate`: writes iff `d <= 31`. -/
def setDate (st : DS3234St) (d : Nat) : DS3234St × List SpiEv :=
  if d ≤ 31 then (st, spi_write_byte 0x04 (DECtoBCD d)) else (st, [])

/-- `DS3234.setMonth`: writes iff `1 <= mo <= 12`. -/
def setMonth (st : DS3234St) (mo : Nat) : DS3234St × List SpiEv :=
  if 1 ≤ mo ∧ mo ≤ 12 then (st, spi_write_byte 0x05 (DECtoBCD mo)) else (st, [])

/-- `DS3234.setYear`: writes iff `y <= 99`. -/
def setYear (st : DS3234St) (y : Nat) : DS3234St × List SpiEv :=
  if y ≤ 99 then (st, spi_write_byte 0x06 (DECtoBCD y)) else (st, [])

end DS3234

/-- A DS3234 state whose stored seconds register byte is `0x25`. -/
def dst1 : DS3234.DS3234St := { _time := [0x25, 0, 0, 0, 0, 0, 0], _pm := false }

/-- A DS3234 state whose stored seconds register byte is `0x41`. -/
def dst2 : DS3234.DS3234St := { _time := [0x41, 0, 0, 0, 0, 0, 0], _pm := false }

/-- A fresh SHTC3 driver state. -/
def sst0 : SHTC3.SHTC3St := { _t := 0, _h := 0 }

/-- A 6-byte SHTC3 measurement frame with valid CRCs. -/
def frameEx : List Nat := [0, 0, 129, 0, 0, 129]

/-- An I2C port on which every write succeeds and every read returns
the CRC-valid SHTC3 frame `frameEx`. -/
def shtPort : I2CPort :=
  { writeOutcome := fun _ => .ok ()
    readOutcome := fun _ => .ok frameEx }

example : SHTC3.crc8 [0, 0] = 129 := by decide
example : (SHTC3.sample shtPort sst0).1 = true := by rfl
example : (SHTC3.sample failPort sst0) = (false, sst0, [.wr [0x35, 0x17]]) := by rfl
example : (DS3234.second dst1).1 = 25 := by rfl
example : DS3234.setSecond dst1 60 = (dst1, []) := by rfl
example : DS3234.setSecond dst1 42 = (dst1, [.wr 0x80 [0x42]]) := by rfl

/-- A BMP180 port whose pressure-data read returns the bytes 1, 2, 3. -/
def bmpPortEx : BMPPort := { readMem := fun _ _ => [1, 2, 3] }

/-- Claim C1 (counterexample): the claim "every public read operation
of every driver lets no exception propagate when the bus transaction
raises" is false: on a bus where every transaction raises `OSError`,
`RotaryEncoder.getData` raises a `ValueError` out of
`ustruct.unpack('<h', b'')`, after the single address write. -/
theorem claim_C1_counterexample :
    (RotaryEncoder.getData failPort rst0).1 = Except.error PyErr.valueError ∧
    (RotaryEncoder.getData failPort rst0).2 = [BusEv.wr [0]] := by
  exact ⟨rfl, rfl⟩

/-- Claim C1 (amended): when the underlying bus transaction raises,
`Qwiic.read_data` returns the empty byte string and
`PIRSensor.get_state` returns `False`, each issuing exactly one bus
transaction with no second attempt and propagating no exception; but
`RotaryEncoder.getData` propagates a `ValueError` raised while
unpacking the empty sentinel, so the no-exception guarantee does not
extend to every driver read operation. -/
theorem claim_C1_amended (p : I2CPort) (st : Qwiic.QwiicSt)
    (pst : PIRSensor.PIRSt) (rst : RotaryEncoder.RotSt) (n : Nat) (e : PyErr) :
    (p.readOutcome n = .error e →
      Qwiic.read_data p st n = ([], { st with err := some e }, [.rd n]))
  ∧ (p.readOutcome 1 = .error e →
      (PIRSensor.get_state p pst).1 = false ∧
      (PIRSensor.get_state p pst).2.2 = [.rd 1])
  ∧ (p.writeOutcome [0] = .error e →
      (RotaryEncoder.getData p rst).1 = Except.error PyErr.valueError ∧
      (RotaryEncoder.getData p rst).2 = [.wr [0]])
  ∧ (p.writeOutcome [0] = .ok () → p.readOutcome 5 = .error e →
      (RotaryEncoder.getData p rst).1 = Except.error PyErr.valueError) := by
  refine ⟨fun h => ?_, fun h => ?_, fun h => ?_, fun h h5 => ?_⟩
  · simp [Qwiic.read_data, h]
  · simp [PIRSensor.get_state, Qwiic.read_data, h]
  · simp [RotaryEncoder.getData, Qwiic.read_register, Qwiic.send_address,
      RotaryEncoder.unpackInt16le, h]
  · simp [RotaryEncoder.getData, Qwiic.read_register, Qwiic.send_address,
      Qwiic.read_data, RotaryEncoder.unpackInt16le, h, h5]

/-- Claim C1 (witness): the amended claim instantiated on the port
where every transaction raises `OSError`. -/
theorem claim_C1_witness :
    Qwiic.read_data failPort qst0 2 =
      ([], { err := some PyErr.osError }, [BusEv.rd 2])
  ∧ (PIRSensor.get_state failPort pst0).1 = false
  ∧ (RotaryEncoder.getData failPort rst0).1 = Except.error PyErr.valueError := by
  have h := claim_C1_amended failPort qst0 pst0 rst0 2 PyErr.osError
  exact ⟨h.1 rfl, (h.2.1 rfl).1, (h.2.2.1 rfl).1⟩

/-- Claim C2: for every raw temperature word `UT` and calibration
constants with `X1 + MD` nonzero, `BMP180.read_temperature` stores
`B5 = X1 + X2` and returns `T / 10.0` where
`X1 = ((UT - AC6) * AC5) >> 15`, `X2 = (MC << 11) // (X1 + MD)` and
`T = (X1 + X2 + 8) >> 4`, exactly the Bosch datasheet formula. -/
theorem claim_C2 (cal : BMP180.BMPCal) (UT : Int)
    (_h : pyShr ((UT - cal.AC6) * cal.AC5) 15 + cal.MD ≠ 0) :
    BMP180.read_temperature cal UT =
      (boschSpecB5 cal.AC5 cal.AC6 cal.MC cal.MD UT,
       (boschSpecT cal.AC5 cal.AC6 cal.MC cal.MD UT : ℚ) / 10) := rfl

/-- Claim C2 (witness): the datasheet example `UT = 27898` with the
datasheet calibration constants. -/
theorem claim_C2_witness :
    BMP180.read_temperature calEx 27898 =
      (boschSpecB5 calEx.AC5 calEx.AC6 calEx.MC calEx.MD 27898,
       (boschSpecT calEx.AC5 calEx.AC6 calEx.MC calEx.MD 27898 : ℚ) / 10) :=
  claim_C2 calEx 27898 (by decide)

/-- Claim C3: for every raw pressure `UP`, stored `B5`, oversampling
setting `oss ≤ 3` and calibration constants with `B4` nonzero, the
BMP180 pressure computation is the exact datasheet integer pipeline,
and `read_pressure` returns `P` divided by 100, with `B5` taken from
the preceding `read_temperature` call. -/
theorem claim_C3 (cal : BMP180.BMPCal) (B5 UP UT : Int) (oss : Nat)
    (_hoss : oss ≤ 3) (_hB4 : boschSpecB4 cal B5 ≠ 0) :
    BMP180.pressureP cal B5 UP oss = boschSpecP cal B5 UP oss
  ∧ BMP180.read_pressure cal UT UP oss =
      (BMP180.pressureP cal (BMP180.read_temperature cal UT).1 UP oss : ℚ) / 100 :=
  ⟨rfl, rfl⟩

/-- Claim C3 (witness): the datasheet example `B5 = 2399`,
`UP = 23843`, `oss = 0`. -/
theorem claim_C3_witness :
    BMP180.pressureP calEx 2399 23843 0 = boschSpecP calEx 2399 23843 0
  ∧ BMP180.read_pressure calEx 27898 23843 0 =
      (BMP180.pressureP calEx (BMP180.read_temperature calEx 27898).1 23843 0 : ℚ) / 100 :=
  claim_C3 calEx 2399 23843 27898 0 (by decide) (by decide)

/-- Claim C4: `Qwiic.read_register(reg, n)` returns the empty byte
string without issuing any read when the address write fails, and
otherwise returns exactly `read_data(n)`; `send_address` and
`send_data` return `0` on success and `-1` when the I2C write raises,
storing the raised exception in `self.err`, and `read_data` returns
the empty byte string when the I2C read raises. -/
theorem claim_C4 (p : I2CPort) (st : Qwiic.QwiicSt) (reg n : Nat)
    (e : PyErr) (d : List Nat) :
    (p.writeOutcome [reg] = .ok () →
      Qwiic.send_address p st reg = (0, st, [.wr [reg]]))
  ∧ (p.writeOutcome [reg] = .error e →
      Qwiic.send_address p st reg = (-1, { st with err := some e }, [.wr [reg]]))
  ∧ (p.writeOutcome [reg] = .error e →
      Qwiic.read_register p st reg n = ([], { st with err := some e }, [.wr [reg]]))
  ∧ (p.writeOutcome [reg] = .ok () →
      Qwiic.read_register p st reg n =
        ((Qwiic.read_data p st n).1, (Qwiic.read_data p st n).2.1,
         .wr [reg] :: (Qwiic.read_data p st n).2.2))
  ∧ (p.readOutcome n = .error e →
      Qwiic.read_data p st n = ([], { st with err := some e }, [.rd n]))
  ∧ (p.writeOutcome d = .ok () → Qwiic.send_data p st d = (0, st, [.wr d]))
  ∧ (p.writeOutcome d = .error e →
      Qwiic.send_data p st d = (-1, { st with err := some e }, [.wr d])) := by
  refine ⟨fun h => ?_, fun h => ?_, fun h => ?_, fun h => ?_, fun h => ?_,
    fun h => ?_, fun h => ?_⟩ <;>
    simp [Qwiic.send_address, Qwiic.read_register, Qwiic.read_data,
      Qwiic.send_data, h]

/-- Claim C4 (witness): `read_register` on a port whose writes raise
`OSError`, and on a port where all transactions succeed. -/
theorem claim_C4_witness :
    Qwiic.read_register failPort qst0 5 3 =
      ([], { err := some PyErr.osError }, [BusEv.wr [5]])
  ∧ Qwiic.read_register okPort qst0 5 3 =
      ([7, 7, 7], qst0, [BusEv.wr [5], BusEv.rd 3]) := by
  have h1 := (claim_C4 failPort qst0 5 3 PyErr.osError []).2.2.1 rfl
  have h2 := (claim_C4 okPort qst0 5 3 PyErr.osError []).2.2.2.1 rfl
  refine ⟨h1, ?_⟩
  rw [h2]; rfl

/-- Claim C5 (counterexample): the claim "no driver read operation
returns a value stored by an earlier call" is false: `DS3234.second`
performs no bus transaction at all and returns different values for
two driver states whose stored `_time` arrays differ, so its result
comes from the register image stored by an earlier `update` call. -/
theorem claim_C5_counterexample :
    (DS3234.second dst1).2 = [] ∧ (DS3234.second dst2).2 = []
  ∧ (DS3234.second dst1).1 ≠ (DS3234.second dst2).1 := by
  refine ⟨rfl, rfl, ?_⟩
  decide

/-- Claim C5 (amended): the drivers split reads into an update step
and accessor steps: `DS3234.update` performs the bus transaction and
stores the register image, while `DS3234.second`,
`SHTC3.readTemperature` and `SHTC3.readHumidity` perform no bus
transaction and convert the stored raw values of the most recent
update/sample; `DS3234.getSecond` does read the bus in the same call. -/
theorem claim_C5_amended (p : SpiPort) (st : DS3234.DS3234St)
    (sst : SHTC3.SHTC3St) :
    (DS3234.update p st).2 = [SpiEv.rd 0 7]
  ∧ DS3234.second (DS3234.update p st).1 =
      (DS3234.BCDtoDEC ((p.read 0 7).getD 0 0), [])
  ∧ (DS3234.getSecond p st).1 = DS3234.BCDtoDEC ((p.read 0 1).getD 0 0)
  ∧ (DS3234.getSecond p st).2.2 = [SpiEv.rd 0 1]
  ∧ SHTC3.readTemperature sst = ((sst._t : ℚ) * SHTC3.T_K - SHTC3.T_MIN, [])
  ∧ SHTC3.readHumidity sst = ((sst._h : ℚ) * SHTC3.H_K, []) := by
  refine ⟨?_, ?_, rfl, rfl, rfl, rfl⟩
  · unfold DS3234.update DS3234.spi_read_bytes
    dsimp only
    split <;> rfl
  · unfold DS3234.update DS3234.spi_read_bytes DS3234.second
    dsimp only
    split <;> rfl

/-- Claim C6: `BMP180._read_raw_pressure` follows exactly the
write-register, wait-fixed-delay, read-result pattern: it writes the
command byte `0x34 + (oss << 6)` to control register `0xF4`, waits
`2 + (3 << oss)` milliseconds, reads three bytes from data register
`0xF6`, and returns `((msb << 16) + (lsb << 8) + xlsb) >> (8 - oss)`,
which fits in `16 + oss` bits. -/
theorem claim_C6 (p : BMPPort) (oss msb lsb xlsb : Nat)
    (hoss : oss ≤ 3) (hb : p.readMem 0xF6 3 = [msb, lsb, xlsb])
    (hm : msb < 256) (hl : lsb < 256) (hx : xlsb < 256) :
    BMP180.read_raw_pressure p oss =
      (((msb <<< 16) + (lsb <<< 8) + xlsb) >>> (8 - oss),
       [MemEv.wrMem 0xF4 [0x34 + (oss <<< 6)],
        MemEv.sleepMs (2 + (3 <<< oss)), MemEv.rdMem 0xF6 3])
  ∧ (BMP180.read_raw_pressure p oss).1 < 2 ^ (16 + oss) := by
  constructor
  · simp [BMP180.read_raw_pressure, hb]
  · simp only [BMP180.read_raw_pressure, hb]
    simp only [List.getD_cons_zero, List.getD_cons_succ,
      Nat.shiftLeft_eq, Nat.shiftRight_eq_div_pow]
    interval_cases oss <;> norm_num <;> omega

/-- Claim C6 (witness): `oss = 1` on a port returning the bytes
1, 2, 3. -/
theorem claim_C6_witness :
    BMP180.read_raw_pressure bmpPortEx 1 =
      (((1 <<< 16) + (2 <<< 8) + 3) >>> (8 - 1),
       [MemEv.wrMem 0xF4 [0x34 + (1 <<< 6)],
        MemEv.sleepMs (2 + (3 <<< 1)), MemEv.rdMem 0xF6 3])
  ∧ (BMP180.read_raw_pressure bmpPortEx 1).1 < 2 ^ (16 + 1) :=
  claim_C6 bmpPortEx 1 1 2 3 (by decide) rfl (by decide) (by decide) (by decide)

/-- Claim C7: after a `SHTC3.sample` call that returns `True` having
read and CRC-validated a 6-byte frame `d`, `readTemperature` returns
`((d[0] << 8 | d[1]) * 0.002670288086) - 45.0` and `readHumidity`
returns `(d[3] << 8 | d[4]) * 0.001525878906`; both are pure
conversions of the stored words performing no bus transaction. -/
theorem claim_C7 (p : I2CPort) (st : SHTC3.SHTC3St) (d : List Nat) (rc pz : Nat)
    (hw : p.writeOutcome [SHTC3.SHTC3_WAKEUP >>> 8, SHTC3.SHTC3_WAKEUP &&& 0xFF] = .ok ())
    (hc : p.writeOutcome [rc >>> 8, rc &&& 0xFF] = .ok ())
    (hr : p.readOutcome 6 = .ok d)
    (hlen : d.length = 6)
    (h1 : SHTC3.check_crc d = true)
    (h2 : SHTC3.check_crc (d.drop 3) = true) :
    (SHTC3.sample p st rc pz).1 = true
  ∧ SHTC3.readTemperature (SHTC3.sample p st rc pz).2.1 =
      ((((d.getD 0 0) <<< 8 ||| d.getD 1 0 : Nat) : ℚ) * SHTC3.T_K - 45, [])
  ∧ SHTC3.readHumidity (SHTC3.sample p st rc pz).2.1 =
      ((((d.getD 3 0) <<< 8 ||| d.getD 4 0 : Nat) : ℚ) * SHTC3.H_K, []) := by
  have hs : (SHTC3.sample p st rc pz).2.1 =
      { _t := (d.getD 0 0) <<< 8 ||| d.getD 1 0,
        _h := (d.getD 3 0) <<< 8 ||| d.getD 4 0 } := by
    simp [SHTC3.sample, SHTC3.twi_command, SHTC3.twi_transfer, hw, hc, hr,
      hlen, h1, h2]
  refine ⟨?_, ?_, ?_⟩
  · simp [SHTC3.sample, SHTC3.twi_command, SHTC3.twi_transfer, hw, hc, hr,
      hlen, h1, h2]
  · rw [hs]; simp [SHTC3.readTemperature, SHTC3.T_MIN]
  · rw [hs]; simp [SHTC3.readHumidity]

/-- Claim C7 (witness): the CRC-valid all-zero frame on a port whose
transactions succeed. -/
theorem claim_C7_witness :
    (SHTC3.sample shtPort sst0 SHTC3.SHTC3_READ 15).1 = true
  ∧ SHTC3.readTemperature (SHTC3.sample shtPort sst0 SHTC3.SHTC3_READ 15).2.1 =
      ((((frameEx.getD 0 0) <<< 8 ||| frameEx.getD 1 0 : Nat) : ℚ) * SHTC3.T_K - 45, [])
  ∧ SHTC3.readHumidity (SHTC3.sample shtPort sst0 SHTC3.SHTC3_READ 15).2.1 =
      ((((frameEx.getD 3 0) <<< 8 ||| frameEx.getD 4 0 : Nat) : ℚ) * SHTC3.H_K, []) :=
  claim_C7 shtPort sst0 frameEx SHTC3.SHTC3_READ 15 rfl rfl rfl (by decide)
    (by decide) (by decide)

/-- Claim C8: `BCDtoDEC` and `DECtoBCD` are mutually inverse on their
valid ranges: `BCDtoDEC (DECtoBCD v) = v` for `0 ≤ v ≤ 99`, and
`DECtoBCD (BCDtoDEC b) = b` for every byte whose high and low nibbles
are each at most 9. -/
theorem claim_C8 (v b : Nat) (_hv : v ≤ 99) (_hbh : b / 16 ≤ 9)
    (hbl : b % 16 ≤ 9) :
    DS3234.BCDtoDEC (DS3234.DECtoBCD v) = v ∧
    DS3234.DECtoBCD (DS3234.BCDtoDEC b) = b := by
  unfold DS3234.BCDtoDEC DS3234.DECtoBCD
  constructor <;> omega

/-- Claim C8 (witness): the round trips at `v = 45` and `b = 0x37`. -/
theorem claim_C8_witness :
    DS3234.BCDtoDEC (DS3234.DECtoBCD 45) = 45 ∧
    DS3234.DECtoBCD (DS3234.BCDtoDEC 0x37) = 0x37 :=
  claim_C8 45 0x37 (by decide) (by decide) (by decide)

/-- Claim C9: whenever `SHTC3.sample` returns `False` — wakeup failed,
the read raised or returned a short frame, or a CRC check failed — the
stored raw values `_t` and `_h` are unchanged, so `readTemperature`
and `readHumidity` keep returning the values of the last successful
sample. -/
theorem claim_C9 (p : I2CPort) (st : SHTC3.SHTC3St) (rc pz : Nat)
    (h : (SHTC3.sample p st rc pz).1 = false) :
    (SHTC3.sample p st rc pz).2.1 = st
  ∧ SHTC3.readTemperature (SHTC3.sample p st rc pz).2.1 =
      SHTC3.readTemperature st
  ∧ SHTC3.readHumidity (SHTC3.sample p st rc pz).2.1 =
      SHTC3.readHumidity st := by
  have key : (SHTC3.sample p st rc pz).1 = false →
      (SHTC3.sample p st rc pz).2.1 = st := by
    unfold SHTC3.sample
    dsimp only
    split
    · intro _; rfl
    · split
      · intro _; rfl
      · split
        · intro hh; simp at hh
        · intro _; rfl
  refine ⟨key h, ?_, ?_⟩ <;> rw [key h]

/-- Claim C9 (witness): a sample on the port where every transaction
raises leaves the state unchanged. -/
theorem claim_C9_witness :
    (SHTC3.sample failPort sst0 SHTC3.SHTC3_READ 15).2.1 = sst0 :=
  (claim_C9 failPort sst0 SHTC3.SHTC3_READ 15 rfl).1

/-- Claim C10: each single-field DS3234 setter performs an SPI
register write iff its argument is in the accepted range (`setSecond`:
`s ≤ 59`; `setMinute`: `m ≤ 59`; `setHour`: `h ≤ 23`; `setDay`:
`1 ≤ d ≤ 7`; `setDate`: `d ≤ 31`; `setMonth`: `1 ≤ mo ≤ 12`;
`setYear`: `y ≤ 99`); out of range, no bus transaction occurs and the
driver state is unchanged. -/
theorem claim_C10 (st : DS3234.DS3234St) (s m h d dt mo y : Nat) :
    (((DS3234.setSecond st s).2 ≠ [] ↔ s ≤ 59)
      ∧ (DS3234.setSecond st s).1 = st
      ∧ (s ≤ 59 →
          (DS3234.setSecond st s).2 = [SpiEv.wr 0x80 [DS3234.DECtoBCD s]]))
  ∧ (((DS3234.setMinute st m).2 ≠ [] ↔ m ≤ 59)
      ∧ (DS3234.setMinute st m).1 = st
      ∧ (m ≤ 59 →
          (DS3234.setMinute st m).2 = [SpiEv.wr 0x81 [DS3234.DECtoBCD m]]))
  ∧ (((DS3234.setHour st h).2 ≠ [] ↔ h ≤ 23)
      ∧ (DS3234.setHour st h).1 = st
      ∧ (h ≤ 23 →
          (DS3234.setHour st h).2 = [SpiEv.wr 0x82 [DS3234.DECtoBCD h]]))
  ∧ (((DS3234.setDay st d).2 ≠ [] ↔ 1 ≤ d ∧ d ≤ 7)
      ∧ (DS3234.setDay st d).1 = st
      ∧ (1 ≤ d ∧ d ≤ 7 →
          (DS3234.setDay st d).2 = [SpiEv.wr 0x83 [DS3234.DECtoBCD d]]))
  ∧ (((DS3234.setDate st dt).2 ≠ [] ↔ dt ≤ 31)
      ∧ (DS3234.setDate st dt).1 = st
      ∧ (dt ≤ 31 →
          (DS3234.setDate st dt).2 = [SpiEv.wr 0x84 [DS3234.DECtoBCD dt]]))
  ∧ (((DS3234.setMonth st mo).2 ≠ [] ↔ 1 ≤ mo ∧ mo ≤ 12)
      ∧ (DS3234.setMonth st mo).1 = st
      ∧ (1 ≤ mo ∧ mo ≤ 12 →
          (DS3234.setMonth st mo).2 = [SpiEv.wr 0x85 [DS3234.DECtoBCD mo]]))
  ∧ (((DS3234.setYear st y).2 ≠ [] ↔ y ≤ 99)
      ∧ (DS3234.setYear st y).1 = st
      ∧ (y ≤ 99 →
          (DS3234.setYear st y).2 = [SpiEv.wr 0x86 [DS3234.DECtoBCD y]])) := by
  refine ⟨⟨?_, ?_, ?_⟩, ⟨?_, ?_, ?_⟩, ⟨?_, ?_, ?_⟩, ⟨?_, ?_, ?_⟩,
    ⟨?_, ?_, ?_⟩, ⟨?_, ?_, ?_⟩, ⟨?_, ?_, ?_⟩⟩ <;>
  · simp only [DS3234.setSecond, DS3234.setMinute, DS3234.setHour,
      DS3234.setDay, DS3234.setDate, DS3234.setMonth, DS3234.setYear]
    split <;> simp_all [DS3234.spi_write_byte]

/-- Claim C10 (witness): `setSecond 30` on a concrete state writes the
BCD byte to the seconds register. -/
theorem claim_C10_witness :
    (DS3234.setSecond dst1 30).2 = [SpiEv.wr 0x80 [DS3234.DECtoBCD 30]] :=
  ((claim_C10 dst1 30 0 0 1 1 1 0).1).2.2 (by decide)
